import Mathlib

/-
Shallow embedding of the macromanage core (Trend Estimator, Plateau/Adherence
Classifier, Adaptive Adjuster) and verification of the spec's claims about it.

Modelling conventions:
* Python floats are modelled as exact rationals (ℚ); Python ints as ℤ; dates
  (datetime at day granularity) as ℤ day numbers, so `(a.date - b.date).days`
  becomes integer subtraction.
* Python's `round` (and numpy's) rounds half to even; it is modelled exactly by
  `roundHalfEven` below.
* Python's `xs[-n:]` slice is modelled by `lastSlice` (note `xs[-0:]` is the
  whole list).
* `np.mean []` is NaN in numpy; in ℚ the corresponding `sum/length` is 0/0 = 0.
  No theorem below depends on that degenerate case.
* `np.polyfit(x, y, 1)` is modelled by the closed-form least-squares slope
  `lsqSlope`; when the design matrix is singular (all x equal) the rational
  division yields 0.  No theorem below depends on that degenerate case.
* Fallible Python code (ZeroDivisionError) is modelled with `Except Unit`.
* f-string formatting of numbers is modelled with exact rational rounding
  (`fmt1` for `:.1f`, `roundHalfEven (a * 100)` for `:.0%`).
-/

namespace Macromanage

set_option maxRecDepth 100000

instance {ε α : Type} [DecidableEq ε] [DecidableEq α] : DecidableEq (Except ε α) :=
  fun a b =>
    match a, b with
    | .ok x, .ok y =>
      if h : x = y then .isTrue (by rw [h]) else .isFalse (by simp [h])
    | .error x, .error y =>
      if h : x = y then .isTrue (by rw [h]) else .isFalse (by simp [h])
    | .ok _, .error _ => .isFalse (by simp)
    | .error _, .ok _ => .isFalse (by simp)

section

attribute [local semireducible] Rat.add Rat.mul Rat.sub Rat.inv

/-- `DailyLog` from base_types.py: a single day's tracking data.  Optional
fields that never influence the core computations (steps, water, sleep, notes)
are carried for completeness. -/
structure DailyLog where
  date : ℤ
  weight : ℚ
  body_fat : ℚ
  calories : ℤ
  protein : ℚ
  carbs : ℚ
  fat : ℚ
  lean_mass : Option ℚ := none
  fat_mass : Option ℚ := none
  steps : Option ℤ := none
  water : Option ℚ := none
  sleep : Option ℚ := none
  notes : Option String := none
deriving DecidableEq, Inhabited

/-- `DailyLog.__post_init__` from base_types.py: dataclass construction
followed by the derived-field computation.  Python's `if self.weight and
self.body_fat` tests truthiness, i.e. both floats nonzero. -/
def mkDailyLog (date : ℤ) (weight body_fat : ℚ) (calories : ℤ)
    (protein carbs fat : ℚ) (lean_mass fat_mass : Option ℚ) : DailyLog :=
  if weight ≠ 0 ∧ body_fat ≠ 0 then
    { date, weight, body_fat, calories, protein, carbs, fat,
      fat_mass := some (weight * (body_fat / 100)),
      lean_mass := some (weight - weight * (body_fat / 100)) }
  else
    { date, weight, body_fat, calories, protein, carbs, fat, lean_mass, fat_mass }

/-- `UserStats` from base_types.py (fields used by the core). -/
structure UserStats where
  weight : ℚ
  body_fat : ℚ
  target_weight : ℚ
  target_body_fat : ℚ
  activity_level : ℚ := 31/20
deriving DecidableEq, Inhabited

/-- `DietMode` enumeration from base_types.py. -/
inductive DietMode where
  | aggressive_cut
  | standard_cut
  | conservative_cut
  | maintenance
  | lean_bulk
  | standard_bulk
deriving DecidableEq, Inhabited

/-- Python's `round` / numpy rounding: nearest integer, ties to even. -/
def roundHalfEven (q : ℚ) : ℤ :=
  if q - ⌊q⌋ < 1/2 then ⌊q⌋
  else if q - ⌊q⌋ > 1/2 then ⌊q⌋ + 1
  else if ⌊q⌋ % 2 = 0 then ⌊q⌋ else ⌊q⌋ + 1

/-- Python's `xs[-n:]` for a natural `n` (for `n = 0` it is the whole list). -/
def lastSlice (n : ℕ) (xs : List α) : List α :=
  if n = 0 then xs else xs.drop (xs.length - n)

/-- `np.mean` on a list of rationals. -/
def mean (l : List ℚ) : ℚ := l.sum / (l.length : ℚ)

/-- Population variance, the square of `np.std`. -/
def variance (l : List ℚ) : ℚ := mean (l.map fun x => (x - mean l) * (x - mean l))

/-- Sum of pointwise products. -/
def dot (xs ys : List ℚ) : ℚ := (List.zipWith (· * ·) xs ys).sum

/-- Least-squares slope of `ys` against `xs`, i.e. `np.polyfit(xs, ys, 1)[0]`
in the nondegenerate case. -/
def lsqSlope (xs ys : List ℚ) : ℚ :=
  ((xs.length : ℚ) * dot xs ys - xs.sum * ys.sum) /
    ((xs.length : ℚ) * dot xs xs - xs.sum * xs.sum)

/-- The sort key used throughout: ascending by date. -/
def dateLE (a b : DailyLog) : Prop := a.date ≤ b.date

instance : DecidableRel dateLE := fun a b => inferInstanceAs (Decidable (a.date ≤ b.date))

/-- Python's stable `sorted(key=lambda x: x.date)`. -/
def sortByDate (l : List DailyLog) : List DailyLog := l.insertionSort dateLE

/-- Day offsets of a window relative to its first element, and the daily
least-squares weight slope over the window (the `np.polyfit(dates, weights, 1)`
step shared by `calculate_tdee` and `calculate_trends`). -/
def trendSlope (l : List DailyLog) : ℚ :=
  lsqSlope (l.map fun g => ((g.date - (l.headD default).date : ℤ) : ℚ))
    (l.map fun g => g.weight)

/-- The fraction of days with calories logged (> 0), computed as
`np.mean([1 if log.calories > 0 else 0 for log in l])`. -/
def adherenceFrac (l : List DailyLog) : ℚ :=
  mean (l.map fun g => if 0 < g.calories then (1 : ℚ) else 0)

/-- The pre-rounding TDEE estimate of `ProgressTracker.calculate_tdee`:
average calories over the sorted window minus the slope converted
via 2.20462 lbs/kg and 3500 kcal/lb. -/
def tdeeRaw (logs : List DailyLog) (days : ℕ) : ℚ :=
  mean ((sortByDate (lastSlice days logs)).map fun g => (g.calories : ℚ)) -
    trendSlope (sortByDate (lastSlice days logs)) * (220462/100000) * 3500

/-- `ProgressTracker.calculate_tdee` from progress_tracker.py. -/
def ProgressTracker.calculate_tdee (logs : List DailyLog) (days : ℕ) : Option ℤ :=
  if logs.length < 7 then none
  else if (sortByDate (lastSlice days logs)).length < 7 then none
  else if 500 ≤ roundHalfEven (tdeeRaw logs days) ∧ roundHalfEven (tdeeRaw logs days) ≤ 10000
  then some (roundHalfEven (tdeeRaw logs days))
  else none

/-- The dictionary returned by `ProgressTracker.calculate_trends` when data is
sufficient.  `weight_trend` is only inserted when the window has more than one
point.  `np.std` is an irrational square root, so the embedding carries the
squared coefficient of variation `weight_cv_sq` (= weight_cv²); no claim
depends on this entry. -/
structure Trends where
  weight_trend : Option ℚ
  weight_ma : ℚ
  calories_ma : ℚ
  protein_ma : ℚ
  weight_cv_sq : ℚ
  calorie_adherence : ℚ
deriving DecidableEq

/-- `ProgressTracker.calculate_trends` from progress_tracker.py; `none`
models the empty dict. -/
def ProgressTracker.calculate_trends (logs : List DailyLog) (days : ℕ) : Option Trends :=
  if logs.length < days then none
  else
    let recent := lastSlice days logs
    some
      { weight_trend := if 1 < recent.length then some (trendSlope recent * 7) else none
        weight_ma := mean ((lastSlice 7 recent).map fun g => g.weight)
        calories_ma := mean ((lastSlice 7 recent).map fun g => (g.calories : ℚ))
        protein_ma := mean ((lastSlice 7 recent).map fun g => g.protein)
        weight_cv_sq := variance (recent.map fun g => g.weight) /
          (mean (recent.map fun g => g.weight) * mean (recent.map fun g => g.weight)) * 10000
        calorie_adherence := adherenceFrac (lastSlice 7 recent) }

/-- The message built by `f"Plateau detected but adherence is low ({adherence:.0%})"`. -/
def lowAdherenceMsg (adherence : ℚ) : String :=
  "Plateau detected but adherence is low (" ++ toString (roundHalfEven (adherence * 100)) ++ "%)"

/-- `ProgressTracker.detect_plateau` from progress_tracker.py. -/
def ProgressTracker.detect_plateau (logs : List DailyLog) (threshold : ℚ) (weeks : ℕ) :
    Bool × String :=
  match ProgressTracker.calculate_trends logs (weeks * 7) with
  | none => (false, "Insufficient data")
  | some changes =>
    match changes.weight_trend with
    | none => (false, "Insufficient data")
    | some wt =>
      if |wt| < threshold then
        if changes.calorie_adherence > 9/10 then
          (true, "True plateau detected (good adherence)")
        else
          (true, lowAdherenceMsg changes.calorie_adherence)
      else (false, "No plateau detected")

/-- The dictionary returned by `ProgressTracker.analyze_body_composition` when
data is sufficient; the lean/fat extras are inserted together iff both
endpoint `lean_mass` values are truthy (present and nonzero). -/
structure BodyComp where
  total_weight_change : ℚ
  rate_of_change : ℚ
  extras : Option (ℚ × ℚ × ℚ)
deriving DecidableEq

/-- `ProgressTracker.analyze_body_composition` from progress_tracker.py. -/
def ProgressTracker.analyze_body_composition (logs : List DailyLog) (days : ℕ) :
    Option BodyComp :=
  if logs.length < days then none
  else
    let recent := sortByDate (lastSlice days logs)
    let s := recent.headD default
    let e := recent.getLastD default
    some
      { total_weight_change := e.weight - s.weight
        rate_of_change := (e.weight - s.weight) / ((days : ℚ) / 7)
        extras :=
          match e.lean_mass, s.lean_mass with
          | some el, some sl =>
            if el ≠ 0 ∧ sl ≠ 0 then
              some (el - sl,
                (match e.fat_mass, s.fat_mass with
                 | some ef, some sf => if ef ≠ 0 ∧ sf ≠ 0 then ef - sf else 0
                 | _, _ => 0),
                if e.weight ≠ s.weight then (el - sl) / (e.weight - s.weight) else 0)
            else none
          | _, _ => none }

/-- The dictionary returned by `ProgressTracker.get_adherence_stats` when data
is sufficient. -/
structure AdherenceStats where
  logging_adherence : ℚ
  calorie_adherence : ℚ
  protein_adherence : ℚ
deriving DecidableEq

/-- `ProgressTracker.get_adherence_stats` from progress_tracker.py. -/
def ProgressTracker.get_adherence_stats (logs : List DailyLog) (days : ℕ) :
    Option AdherenceStats :=
  if logs.length < days then none
  else
    let recent := lastSlice days logs
    some
      { logging_adherence := (recent.length : ℚ) / (days : ℚ)
        calorie_adherence := adherenceFrac recent
        protein_adherence := mean (recent.map fun g => if 0 < g.protein then (1 : ℚ) else 0) }

/-- `Adjustment` from adjustment_system.py (severity is the free-form string
'low' / 'medium' / 'high' used by the code). -/
structure Adjustment where
  calories : ℤ
  protein : ℤ
  reason : String
  severity : String
  suggestion : String
deriving DecidableEq, Inhabited

/-- Python `f"{q:.1f}"` formatting, modelled with exact rational rounding. -/
def fmt1 (q : ℚ) : String :=
  (if roundHalfEven (q * 10) < 0 then "-" else "") ++
    toString ((roundHalfEven (q * 10)).natAbs / 10) ++ "." ++
    toString ((roundHalfEven (q * 10)).natAbs % 10)

/-- The dictionary returned by `DynamicAdjuster.calculate_weekly_change` when
data is sufficient. -/
structure WeeklyChanges where
  weight_change : ℚ
  lean_change : ℚ
  fat_change : ℚ
deriving DecidableEq

/-- The divisor `weeks = (end.date - start.date).days / 7` used by
`DynamicAdjuster.calculate_weekly_change` over the sorted window. -/
def divisorWeeks (logs : List DailyLog) (days : ℕ) : ℚ :=
  (((sortByDate (lastSlice days logs)).getLastD default).date -
    ((sortByDate (lastSlice days logs)).headD default).date : ℤ) / 7

/-- `DynamicAdjuster.calculate_weekly_change` from adjustment_system.py.
`.ok none` models the empty dict returned on short input; `.error ()` models
the ZeroDivisionError raised when the window spans zero days. -/
def DynamicAdjuster.calculate_weekly_change (logs : List DailyLog) (days : ℕ) :
    Except Unit (Option WeeklyChanges) :=
  if logs.length < days then .ok none
  else
    let recent := sortByDate (lastSlice days logs)
    let s := recent.headD default
    let e := recent.getLastD default
    let weeks := divisorWeeks logs days
    if weeks = 0 then .error ()
    else
      .ok (some
        { weight_change := (e.weight - s.weight) / weeks
          lean_change :=
            match e.lean_mass, s.lean_mass with
            | some el, some sl => if el ≠ 0 ∧ sl ≠ 0 then (el - sl) / weeks else 0
            | _, _ => 0
          fat_change :=
            match e.fat_mass, s.fat_mass with
            | some ef, some sf => if ef ≠ 0 ∧ sf ≠ 0 then (ef - sf) / weeks else 0
            | _, _ => 0 })

/-- `DynamicAdjuster.check_diet_adherence` from adjustment_system.py. -/
def DynamicAdjuster.check_diet_adherence (logs : List DailyLog) (days : ℕ) : ℚ :=
  if logs.length < days then 1
  else
    let recent := lastSlice days logs
    ((recent.countP fun g => decide (0 < g.calories)) : ℚ) / (recent.length : ℚ)

/-- `DynamicAdjuster.detect_plateau` from adjustment_system.py (endpoint-based
weekly change, adherence over the last 14 logs). -/
def DynamicAdjuster.detect_plateau (logs : List DailyLog) (weeks : ℕ) :
    Except Unit (Bool × String) :=
  match DynamicAdjuster.calculate_weekly_change logs (weeks * 7) with
  | .error e => .error e
  | .ok none => .ok (false, "Insufficient data")
  | .ok (some changes) =>
    if |changes.weight_change| < 1/5 then
      let adherence := DynamicAdjuster.check_diet_adherence logs 14
      if adherence > 9/10 then .ok (true, "True plateau detected (good adherence)")
      else .ok (true, lowAdherenceMsg adherence)
    else .ok (false, "No plateau detected")

/-- `DynamicAdjuster._calculate_adaptive_adjustment` from adjustment_system.py. -/
def DynamicAdjuster.calculate_adaptive_adjustment
    (weekly_change : ℚ) (mode : DietMode) (body_fat : ℚ) : ℤ :=
  let base : ℚ := 200
  let base1 := if body_fat < 12 then base * (7/10)
    else if body_fat > 25 then base * (13/10) else base
  let target : ℚ :=
    if mode = DietMode.aggressive_cut ∨ mode = DietMode.standard_cut then
      (if mode = DietMode.aggressive_cut then -(4/5) else -(1/2))
    else (if mode = DietMode.lean_bulk then 1/4 else 1/2)
  let deviation := |weekly_change - target|
  let base2 := if deviation > 1/2 then base1 * (3/2)
    else if deviation < 1/5 then base1 * (7/10) else base1
  roundHalfEven base2

/-- `DynamicAdjuster._handle_weight_loss_adjustments` from
adjustment_system.py, returning the records it appends. -/
def DynamicAdjuster.handle_weight_loss_adjustments
    (weekly_change target_loss : ℚ) (base_adjustment : ℤ) : List Adjustment :=
  if weekly_change > target_loss * (1/2) then
    [{ calories := -base_adjustment
       protein := 0
       reason := "Weight loss too slow (" ++ fmt1 |weekly_change| ++ " vs " ++
         fmt1 |target_loss| ++ " kg/week)"
       severity := "medium"
       suggestion := "Reduce calories by " ++ toString base_adjustment ++ " per day" }]
  else if weekly_change < target_loss * (3/2) then
    [{ calories := base_adjustment
       protein := roundHalfEven ((base_adjustment : ℚ) / 40)
       reason := "Weight loss too fast (" ++ fmt1 |weekly_change| ++ " vs " ++
         fmt1 |target_loss| ++ " kg/week)"
       severity := "high"
       suggestion := "Increase calories by " ++ toString base_adjustment ++
         " and protein by " ++ toString (roundHalfEven ((base_adjustment : ℚ) / 40)) ++
         "g per day" }]
  else []

/-- `DynamicAdjuster._handle_weight_gain_adjustments` from
adjustment_system.py, returning the records it appends. -/
def DynamicAdjuster.handle_weight_gain_adjustments
    (weekly_change target_gain : ℚ) (base_adjustment : ℤ) : List Adjustment :=
  if weekly_change < target_gain * (1/2) then
    [{ calories := base_adjustment
       protein := 0
       reason := "Weight gain too slow (" ++ fmt1 weekly_change ++ " vs " ++
         fmt1 target_gain ++ " kg/week)"
       severity := "medium"
       suggestion := "Increase calories by " ++ toString base_adjustment ++ " per day" }]
  else if weekly_change > target_gain * (3/2) then
    [{ calories := -base_adjustment
       protein := 0
       reason := "Weight gain too fast (" ++ fmt1 weekly_change ++ " vs " ++
         fmt1 target_gain ++ " kg/week)"
       severity := "high"
       suggestion := "Reduce calories by " ++ toString base_adjustment ++ " per day" }]
  else []

/-- `DynamicAdjuster._handle_body_composition_adjustments` from
adjustment_system.py, returning the records it appends. -/
def DynamicAdjuster.handle_body_composition_adjustments
    (changes : WeeklyChanges) (mode : DietMode) (body_fat : ℚ) : List Adjustment :=
  if changes.lean_change < 0 ∧ mode ≠ DietMode.aggressive_cut then
    [{ calories := 200
       protein := if body_fat > 20 then 25 else 35
       reason := "Losing lean mass"
       severity := "high"
       suggestion := "Increase calories by 200 and protein by " ++
         toString (if body_fat > (20:ℚ) then (25:ℤ) else 35) ++ "g per day" }]
  else []

/-- `DynamicAdjuster._handle_plateau_adjustments` from adjustment_system.py,
returning the records it appends (propagating the adjuster `detect_plateau`
failure). -/
def DynamicAdjuster.handle_plateau_adjustments (logs : List DailyLog) (mode : DietMode) :
    Except Unit (List Adjustment) :=
  match DynamicAdjuster.detect_plateau logs 3 with
  | .error e => .error e
  | .ok (is_plateaued, _message) =>
    .ok <|
      if is_plateaued then
        if DynamicAdjuster.check_diet_adherence logs 14 > 9/10 then
          if mode = DietMode.aggressive_cut ∨ mode = DietMode.standard_cut then
            [{ calories := -300, protein := 0
               reason := "Progress has plateaued with good adherence"
               severity := "medium"
               suggestion := "Reduce calories by 300 per day or implement a diet break" }]
          else if mode = DietMode.lean_bulk ∨ mode = DietMode.standard_bulk then
            [{ calories := 300, protein := 0
               reason := "Progress has plateaued with good adherence"
               severity := "medium"
               suggestion := "Increase calories by 300 per day" }]
          else []
        else
          [{ calories := 0, protein := 0
             reason := "Apparent plateau but adherence is low"
             severity := "low"
             suggestion := "Focus on consistency before making adjustments" }]
      else []

/-- `DynamicAdjuster.calculate_adjustments` from adjustment_system.py. -/
def DynamicAdjuster.calculate_adjustments
    (logs : List DailyLog) (stats : UserStats) (mode : DietMode) :
    Except Unit (List Adjustment) :=
  match DynamicAdjuster.calculate_weekly_change logs 7 with
  | .error e => .error e
  | .ok none => .ok []
  | .ok (some changes) =>
    let weekly_change := changes.weight_change
    let current_body_fat :=
      match logs.getLast? with
      | some g => g.body_fat
      | none => stats.body_fat
    let base_adjustment :=
      DynamicAdjuster.calculate_adaptive_adjustment weekly_change mode current_body_fat
    let rate_adjustments :=
      if mode = DietMode.aggressive_cut ∨ mode = DietMode.standard_cut then
        DynamicAdjuster.handle_weight_loss_adjustments weekly_change
          (if mode = DietMode.aggressive_cut then -(4/5) else -(1/2)) base_adjustment
      else if mode = DietMode.lean_bulk ∨ mode = DietMode.standard_bulk then
        DynamicAdjuster.handle_weight_gain_adjustments weekly_change
          (if mode = DietMode.lean_bulk then 1/4 else 1/2) base_adjustment
      else []
    let comp_adjustments :=
      DynamicAdjuster.handle_body_composition_adjustments changes mode current_body_fat
    match DynamicAdjuster.handle_plateau_adjustments logs mode with
    | .error e => .error e
    | .ok plateau_adjustments =>
      .ok (rate_adjustments ++ comp_adjustments ++ plateau_adjustments)

/-- Largest element of a list of integers (0 for the empty list; only ever
applied to nonempty lists below). -/
def listMaxD : List ℤ → ℤ
  | [] => 0
  | x :: xs => xs.foldl max x

/-- Modelled from the spec: `get_net_adjustment` is invoked at
macro_tracker.py:42 but its definition is not part of the source tree; this
definition follows the spec's §4.4 wording: empty input nets to zero;
otherwise the highest severity tier present among High then Medium wins (Low
never contributes numerically), and within the winning tier the maximum
calorie delta and the maximum protein delta are taken independently. -/
def get_net_adjustment (adjustments : List Adjustment) : ℤ × ℤ :=
  let highs := adjustments.filter fun a => a.severity = "high"
  let meds := adjustments.filter fun a => a.severity = "medium"
  if highs ≠ [] then
    (listMaxD (highs.map fun a => a.calories), listMaxD (highs.map fun a => a.protein))
  else if meds ≠ [] then
    (listMaxD (meds.map fun a => a.calories), listMaxD (meds.map fun a => a.protein))
  else (0, 0)

/-- Modelled from the claim (C3) / spec §4.1 wording: with at least 7 logs,
take the most recent `days` logs, average their calories, regress weight on
day-offset, return `round(mean_calories - slope * 2.20462 * 3500)`, replaced
by the unavailable sentinel outside [500, 10000].  It differs from the source's
`calculate_tdee` only in not re-checking that the selected window itself has at
least 7 logs. -/
def calculate_tdee_spec (logs : List DailyLog) (days : ℕ) : Option ℤ :=
  if logs.length < 7 then none
  else if 500 ≤ roundHalfEven (tdeeRaw logs days) ∧ roundHalfEven (tdeeRaw logs days) ≤ 10000
  then some (roundHalfEven (tdeeRaw logs days))
  else none

/-- Claim C8's body-fat scaling factor (applied first). -/
def bodyFatFactor (body_fat : ℚ) : ℚ :=
  if body_fat < 12 then 7/10 else if body_fat > 25 then 13/10 else 1

/-- Claim C8's deviation scaling factor (applied second). -/
def deviationFactor (deviation : ℚ) : ℚ :=
  if deviation > 1/2 then 3/2 else if deviation < 1/5 then 7/10 else 1

/-- The per-mode target weekly rate used by the adjuster's deviation
computation (cuts: -0.8 / -0.5; lean bulk: 0.25; every other mode falls into
the source's else-branch value 0.5). -/
def modeTargetRate : DietMode → ℚ
  | DietMode.aggressive_cut => -(4/5)
  | DietMode.standard_cut => -(1/2)
  | DietMode.lean_bulk => 1/4
  | _ => 1/2

/-- Adds a constant to the `calories` field of a log, leaving everything else
(including dates and weights) unchanged. -/
def shiftLog (c : ℤ) (g : DailyLog) : DailyLog := { g with calories := g.calories + c }

/-- Adds a constant to every log's calories. -/
def shiftCalories (c : ℤ) (logs : List DailyLog) : List DailyLog := logs.map (shiftLog c)

/-- The endpoint-based weekly weight change of a window: end-minus-start
weight divided by elapsed weeks, as computed by
`DynamicAdjuster.calculate_weekly_change`. -/
def endpointWeeklyRate (l : List DailyLog) : ℚ :=
  ((l.getLastD default).weight - (l.headD default).weight) /
    ((((l.getLastD default).date - (l.headD default).date : ℤ) : ℚ) / 7)

/-- Classifies a plateau-detector result into the four spec states:
0 = insufficient data, 1 = no plateau, 2 = true plateau (good adherence),
3 = plateau with low adherence. -/
def plateauClass (p : Bool × String) : ℕ :=
  if p.1 then (if p.2 = "True plateau detected (good adherence)" then 2 else 3)
  else (if p.2 = "Insufficient data" then 0 else 1)

/-- A minimal daily log used for concrete witnesses: constant macros, with
`lean_mass`/`fat_mass` left absent. -/
def mkSample (d : ℤ) (w : ℚ) (cal : ℤ) : DailyLog :=
  { date := d, weight := w, body_fat := 15, calories := cal,
    protein := 150, carbs := 200, fat := 70 }

/-- 21 consecutive daily logs, constant weight 80 kg, constant 2000 kcal. -/
def sampleLogs21 : List DailyLog :=
  (List.range 21).map fun i => mkSample i 80 2000

/-- 14 consecutive daily logs, constant weight 80 kg, constant 2000 kcal. -/
def sampleLogs14 : List DailyLog :=
  (List.range 14).map fun i => mkSample i 80 2000

/-- 7 consecutive daily logs, constant weight 80 kg, constant 2000 kcal. -/
def sampleLogs7 : List DailyLog :=
  (List.range 7).map fun i => mkSample i 80 2000

/-- 21 consecutive daily logs, constant weight, calories logged (2000) only on
the last 7 days, zero before: last-7 adherence is 1, last-14 adherence is 1/2. -/
def splitAdherenceLogs : List DailyLog :=
  (List.range 21).map fun i => mkSample i 80 (if i < 14 then 0 else 2000)

/-- 14 consecutive daily logs, constant weight 80 kg, constant 10000 kcal:
the TDEE estimate sits exactly at the upper sanity bound. -/
def boundaryLogs : List DailyLog :=
  (List.range 14).map fun i => mkSample i 80 10000

/-- Concrete low-severity adjustment used in witnesses. -/
def adjLowA : Adjustment :=
  { calories := 0, protein := 0, reason := "Apparent plateau but adherence is low",
    severity := "low", suggestion := "Focus on consistency before making adjustments" }

/-- Concrete medium-severity adjustment used in witnesses. -/
def adjMedA : Adjustment :=
  { calories := -200, protein := 0, reason := "Weight loss too slow (0.1 vs 0.5 kg/week)",
    severity := "medium", suggestion := "Reduce calories by 200 per day" }

/-- Second concrete medium-severity adjustment used in witnesses. -/
def adjMedB : Adjustment :=
  { calories := -300, protein := 10, reason := "Progress has plateaued with good adherence",
    severity := "medium", suggestion := "Reduce calories by 300 per day or implement a diet break" }

/-- Concrete high-severity adjustment used in witnesses. -/
def adjHighA : Adjustment :=
  { calories := 100, protein := 40, reason := "Weight loss too fast (0.9 vs 0.5 kg/week)",
    severity := "high", suggestion := "Increase calories by 100 and protein by 3g per day" }

/-- Second concrete high-severity adjustment used in witnesses; its calorie
delta exceeds adjHighA's while its protein delta is smaller, so the two
tier maxima come from different records. -/
def adjHighB : Adjustment :=
  { calories := 250, protein := 10, reason := "Losing lean mass",
    severity := "high", suggestion := "Increase calories by 250 and protein by 10g per day" }

/-! ### List and window lemmas -/

theorem length_lastSlice {α : Type} (n : ℕ) (xs : List α) (h : n ≠ 0) :
    (lastSlice n xs).length = min n xs.length := by
  simp only [lastSlice, if_neg h, List.length_drop]
  omega

theorem lastSlice_lastSlice {α : Type} (m n : ℕ) (xs : List α) (hm : m ≠ 0) (hmn : m ≤ n) :
    lastSlice m (lastSlice n xs) = lastSlice m xs := by
  have hn : n ≠ 0 := by omega
  simp only [lastSlice, if_neg hm, if_neg hn, List.drop_drop, List.length_drop]
  congr 1
  omega

theorem lastSlice_drop_of_le {α : Type} (m n : ℕ) (xs : List α) (hm : m ≠ 0) (hmn : m ≤ n)
    (hn : n ≤ xs.length) : lastSlice m xs = (lastSlice n xs).drop (n - m) := by
  have hn0 : n ≠ 0 := by omega
  simp only [lastSlice, if_neg hm, if_neg hn0, List.drop_drop]
  congr 1
  omega

theorem headD_mem {α : Type} [Inhabited α] (l : List α) (h : l ≠ []) : l.headD default ∈ l := by
  cases l with
  | nil => exact absurd rfl h
  | cons x xs => exact List.mem_cons_self x xs

theorem getLastD_mem {α : Type} : ∀ (l : List α) (d : α), l ≠ [] → l.getLastD d ∈ l := by
  intro l
  induction l with
  | nil => intro d h; exact absurd rfl h
  | cons x xs ih =>
    intro d _
    rw [List.getLastD_cons]
    cases xs with
    | nil => simp [List.getLastD_nil]
    | cons y ys => exact List.mem_cons_of_mem x (ih x (by simp))

theorem getLastD_irrel {α : Type} (l : List α) (h : l ≠ []) (d d' : α) :
    l.getLastD d = l.getLastD d' := by
  rw [List.getLastD_eq_getLast?, List.getLastD_eq_getLast?]
  cases hl : l.getLast? with
  | none => exact absurd (List.getLast?_eq_none_iff.mp hl) h
  | some z => rfl

theorem getLastD_drop {α : Type} [Inhabited α] (n : ℕ) (l : List α) (h : n < l.length) :
    (l.drop n).getLastD default = l.getLastD default := by
  rw [List.getLastD_eq_getLast?, List.getLastD_eq_getLast?, List.getLast?_drop,
    if_neg (by omega)]

theorem sorted_lastSlice (logs : List DailyLog) (hs : List.Sorted dateLE logs) (n : ℕ) :
    List.Sorted dateLE (lastSlice n logs) := by
  unfold lastSlice
  split
  · exact hs
  · exact List.Pairwise.sublist (List.drop_sublist _ _) hs

theorem sortByDate_of_sorted {l : List DailyLog} (hs : List.Sorted dateLE l) :
    sortByDate l = l :=
  List.Sorted.insertionSort_eq hs

theorem sorted_headD_date_le {l : List DailyLog} (hs : List.Sorted dateLE l)
    {a : DailyLog} (ha : a ∈ l) : (l.headD default).date ≤ a.date := by
  cases l with
  | nil => simp at ha
  | cons x xs =>
    rcases List.mem_cons.mp ha with rfl | hmem
    · exact le_refl _
    · exact List.rel_of_sorted_cons hs a hmem

theorem sorted_date_le_getLastD :
    ∀ {l : List DailyLog}, List.Sorted dateLE l → ∀ {a : DailyLog}, a ∈ l →
      a.date ≤ (l.getLastD default).date := by
  intro l
  induction l with
  | nil => intro _ a ha; simp at ha
  | cons x xs ih =>
    intro hs a ha
    rw [List.getLastD_cons]
    cases xs with
    | nil =>
      rcases List.mem_cons.mp ha with rfl | h
      · simp [List.getLastD_nil]
      · simp at h
    | cons y ys =>
      have hne : (y :: ys : List DailyLog) ≠ [] := by simp
      rw [getLastD_irrel _ hne x default]
      rcases List.mem_cons.mp ha with rfl | h
      · exact List.rel_of_sorted_cons hs _ (getLastD_mem (y :: ys) default hne)
      · exact ih (List.Sorted.of_cons hs) h

/-! ### Rounding lemmas -/

theorem roundHalfEven_add_int (q : ℚ) (c : ℤ) (h : q - ⌊q⌋ ≠ 1/2) :
    roundHalfEven (q + c) = roundHalfEven q + c := by
  have hf : ⌊q + (c : ℚ)⌋ = ⌊q⌋ + c := Int.floor_add_int q c
  unfold roundHalfEven
  rw [hf]
  have hfr : q + (c : ℚ) - ((⌊q⌋ + c : ℤ) : ℚ) = q - ⌊q⌋ := by
    push_cast
    ring
  rw [hfr]
  rcases lt_trichotomy (q - (⌊q⌋ : ℚ)) (1/2 : ℚ) with hlt | heq | hgt
  · rw [if_pos hlt, if_pos hlt]
  · exact absurd heq h
  · have h1 : ¬ (q - (⌊q⌋ : ℚ) < 1/2) := by linarith
    have h2 : q - (⌊q⌋ : ℚ) > 1/2 := hgt
    rw [if_neg h1, if_neg h1, if_pos h2, if_pos h2]
    ring

/-! ### Calorie-shift lemmas (used for C7) -/

theorem shiftLog_date (c : ℤ) (g : DailyLog) : (shiftLog c g).date = g.date := rfl

theorem shiftLog_weight (c : ℤ) (g : DailyLog) : (shiftLog c g).weight = g.weight := rfl

theorem shiftLog_calories (c : ℤ) (g : DailyLog) :
    (shiftLog c g).calories = g.calories + c := rfl

theorem orderedInsert_shift (c : ℤ) (a : DailyLog) (l : List DailyLog) :
    List.orderedInsert dateLE (shiftLog c a) (l.map (shiftLog c)) =
      (List.orderedInsert dateLE a l).map (shiftLog c) := by
  induction l with
  | nil => rfl
  | cons b t ih =>
    by_cases hab : dateLE a b
    · have h2 : dateLE (shiftLog c a) (shiftLog c b) := hab
      simp [List.orderedInsert, hab, h2]
    · have h2 : ¬ dateLE (shiftLog c a) (shiftLog c b) := hab
      simp [List.orderedInsert, hab, h2, ih]

theorem sortByDate_shift (c : ℤ) (l : List DailyLog) :
    sortByDate (shiftCalories c l) = shiftCalories c (sortByDate l) := by
  unfold sortByDate shiftCalories
  induction l with
  | nil => rfl
  | cons a t ih => simp [List.insertionSort, ih, orderedInsert_shift]

theorem lastSlice_shift (c : ℤ) (n : ℕ) (l : List DailyLog) :
    lastSlice n (shiftCalories c l) = shiftCalories c (lastSlice n l) := by
  by_cases h : n = 0 <;>
    simp [lastSlice, shiftCalories, h, List.length_map, ← List.map_drop]

theorem trendSlope_shift (c : ℤ) (l : List DailyLog) :
    trendSlope (shiftCalories c l) = trendSlope l := by
  cases l with
  | nil => rfl
  | cons x xs =>
    unfold trendSlope shiftCalories
    rw [List.map_map, List.map_map]
    congr 1

theorem sum_calories_shift (c : ℤ) : ∀ l : List DailyLog,
    ((shiftCalories c l).map fun g => (g.calories : ℚ)).sum =
      (l.map fun g => (g.calories : ℚ)).sum + l.length * c := by
  intro l
  induction l with
  | nil => simp [shiftCalories]
  | cons x xs ih =>
    simp only [shiftCalories, List.map_cons, List.sum_cons, List.length_cons] at ih ⊢
    rw [ih, shiftLog_calories]
    push_cast
    ring

theorem mean_calories_shift (c : ℤ) (l : List DailyLog) (h : l ≠ []) :
    mean ((shiftCalories c l).map fun g => (g.calories : ℚ)) =
      mean (l.map fun g => (g.calories : ℚ)) + c := by
  have h0 : l.length ≠ 0 := fun hh => h (List.length_eq_zero.mp hh)
  have hn : (l.length : ℚ) ≠ 0 := Nat.cast_ne_zero.mpr h0
  unfold mean
  rw [sum_calories_shift]
  simp only [List.length_map, shiftCalories]
  field_simp
  ring

theorem tdeeRaw_shift (c : ℤ) (logs : List DailyLog) (days : ℕ)
    (h : sortByDate (lastSlice days logs) ≠ []) :
    tdeeRaw (shiftCalories c logs) days = tdeeRaw logs days + c := by
  unfold tdeeRaw
  rw [lastSlice_shift, sortByDate_shift, mean_calories_shift c _ h, trendSlope_shift]
  ring

/-! ### Evaluation lemmas for the classifier -/

theorem calculate_trends_eval (logs : List DailyLog) (days : ℕ)
    (h7 : 7 ≤ days) (hlen : days ≤ logs.length) :
    ProgressTracker.calculate_trends logs days =
      some
        { weight_trend := some (trendSlope (lastSlice days logs) * 7)
          weight_ma := mean ((lastSlice 7 logs).map fun g => g.weight)
          calories_ma := mean ((lastSlice 7 logs).map fun g => (g.calories : ℚ))
          protein_ma := mean ((lastSlice 7 logs).map fun g => g.protein)
          weight_cv_sq := variance ((lastSlice days logs).map fun g => g.weight) /
            (mean ((lastSlice days logs).map fun g => g.weight) *
              mean ((lastSlice days logs).map fun g => g.weight)) * 10000
          calorie_adherence := adherenceFrac (lastSlice 7 logs) } := by
  have hne : ¬ logs.length < days := by omega
  have hl : (lastSlice days logs).length = days := by
    rw [length_lastSlice days logs (by omega)]
    omega
  have h2 : 1 < (lastSlice days logs).length := by omega
  have hcomp : lastSlice 7 (lastSlice days logs) = lastSlice 7 logs :=
    lastSlice_lastSlice 7 days logs (by omega) h7
  simp [ProgressTracker.calculate_trends, hne, h2, hcomp]

theorem detect_plateau_eval (logs : List DailyLog) (hlen : 21 ≤ logs.length) :
    ProgressTracker.detect_plateau logs (1/5) 3 =
      if |trendSlope (lastSlice 21 logs) * 7| < 1/5 then
        if adherenceFrac (lastSlice 7 logs) > 9/10 then
          (true, "True plateau detected (good adherence)")
        else (true, lowAdherenceMsg (adherenceFrac (lastSlice 7 logs)))
      else (false, "No plateau detected") := by
  have h := calculate_trends_eval logs 21 (by norm_num) hlen
  unfold ProgressTracker.detect_plateau
  rw [show (3 * 7 : ℕ) = 21 from rfl, h]

/-! ### Message distinctness lemmas -/

theorem lowAdherenceMsg_length (a : ℚ) :
    (lowAdherenceMsg a).length = 41 + (toString (roundHalfEven (a * 100))).length := by
  unfold lowAdherenceMsg
  rw [String.length_append, String.length_append]
  have h1 : ("Plateau detected but adherence is low (" : String).length = 39 := by decide
  have h2 : ("%)" : String).length = 2 := by decide
  rw [h1, h2]
  omega

theorem lowAdherenceMsg_ne_good (a : ℚ) :
    lowAdherenceMsg a ≠ "True plateau detected (good adherence)" := by
  intro h
  have hl := congrArg String.length h
  rw [lowAdherenceMsg_length] at hl
  have h38 : ("True plateau detected (good adherence)" : String).length = 38 := by decide
  rw [h38] at hl
  omega

/-! ### Evaluation lemmas for the adjuster -/

theorem calculate_weekly_change_short (logs : List DailyLog) (days : ℕ)
    (h : logs.length < days) :
    DynamicAdjuster.calculate_weekly_change logs days = .ok none := by
  simp [DynamicAdjuster.calculate_weekly_change, h]

theorem divisorWeeks_eq_zero_iff (logs : List DailyLog) (days : ℕ) :
    divisorWeeks logs days = 0 ↔
      ((sortByDate (lastSlice days logs)).headD default).date =
        ((sortByDate (lastSlice days logs)).getLastD default).date := by
  unfold divisorWeeks
  rw [div_eq_zero_iff]
  constructor
  · rintro (h | h)
    · have h' : ((sortByDate (lastSlice days logs)).getLastD default).date -
        ((sortByDate (lastSlice days logs)).headD default).date = 0 := by exact_mod_cast h
      omega
    · exact absurd h (by norm_num)
  · intro h
    left
    have h' : ((sortByDate (lastSlice days logs)).getLastD default).date -
        ((sortByDate (lastSlice days logs)).headD default).date = 0 := by omega
    exact_mod_cast h'

theorem calculate_weekly_change_some (logs : List DailyLog) (days : ℕ)
    (hlen : days ≤ logs.length) (hd : divisorWeeks logs days ≠ 0) :
    ∃ ch : WeeklyChanges,
      DynamicAdjuster.calculate_weekly_change logs days = .ok (some ch) ∧
      ch.weight_change = endpointWeeklyRate (sortByDate (lastSlice days logs)) := by
  have h1 : ¬ logs.length < days := by omega
  unfold DynamicAdjuster.calculate_weekly_change
  rw [if_neg h1, if_neg hd]
  exact ⟨_, rfl, rfl⟩

theorem detect_plateau_adj_short (logs : List DailyLog) (h : logs.length < 21) :
    DynamicAdjuster.detect_plateau logs 3 = .ok (false, "Insufficient data") := by
  have h' : logs.length < 3 * 7 := by omega
  unfold DynamicAdjuster.detect_plateau
  rw [calculate_weekly_change_short logs (3 * 7) h']

theorem detect_plateau_adj_eval (logs : List DailyLog) (hlen : 21 ≤ logs.length)
    (hd : divisorWeeks logs 21 ≠ 0) :
    DynamicAdjuster.detect_plateau logs 3 =
      .ok (if |endpointWeeklyRate (sortByDate (lastSlice 21 logs))| < 1/5 then
             (if DynamicAdjuster.check_diet_adherence logs 14 > 9/10 then
                (true, "True plateau detected (good adherence)")
              else (true, lowAdherenceMsg (DynamicAdjuster.check_diet_adherence logs 14)))
           else (false, "No plateau detected")) := by
  obtain ⟨ch, hch, hwc⟩ := calculate_weekly_change_some logs 21 hlen hd
  unfold DynamicAdjuster.detect_plateau
  rw [show (3 * 7 : ℕ) = 21 from rfl, hch]
  simp only [hwc]
  split_ifs <;> rfl

theorem calculate_weekly_change_isOk_iff (logs : List DailyLog) (days : ℕ)
    (hlen : days ≤ logs.length) :
    (DynamicAdjuster.calculate_weekly_change logs days).isOk = true ↔
      divisorWeeks logs days ≠ 0 := by
  have h1 : ¬ logs.length < days := by omega
  by_cases hd : divisorWeeks logs days = 0
  · simp [DynamicAdjuster.calculate_weekly_change, h1, hd, Except.isOk, Except.toBool]
  · simp [DynamicAdjuster.calculate_weekly_change, h1, hd, Except.isOk, Except.toBool]

theorem sortByDate_lastSlice_of_sorted (logs : List DailyLog)
    (hs : List.Sorted dateLE logs) (n : ℕ) :
    sortByDate (lastSlice n logs) = lastSlice n logs :=
  sortByDate_of_sorted (sorted_lastSlice logs hs n)

theorem distinct21_of_distinct7 (logs : List DailyLog) (hs : List.Sorted dateLE logs)
    (hlen : 21 ≤ logs.length)
    (hd : ((lastSlice 7 logs).headD default).date ≠
      ((lastSlice 7 logs).getLastD default).date) :
    ((lastSlice 21 logs).headD default).date ≠
      ((lastSlice 21 logs).getLastD default).date := by
  have h21len : (lastSlice 21 logs).length = 21 := by
    rw [length_lastSlice 21 logs (by omega)]
    omega
  have h7len : (lastSlice 7 logs).length = 7 := by
    rw [length_lastSlice 7 logs (by omega)]
    omega
  have h7eq : lastSlice 7 logs = (lastSlice 21 logs).drop 14 :=
    lastSlice_drop_of_le 7 21 logs (by omega) (by omega) (by omega)
  have hw21ne : lastSlice 21 logs ≠ [] := by
    intro hnil
    rw [hnil] at h21len
    simp at h21len
  have hw7ne : lastSlice 7 logs ≠ [] := by
    intro hnil
    rw [hnil] at h7len
    simp at h7len
  have hs21 : List.Sorted dateLE (lastSlice 21 logs) := sorted_lastSlice logs hs 21
  have hs7 : List.Sorted dateLE (lastSlice 7 logs) := sorted_lastSlice logs hs 7
  have hlasteq : (lastSlice 7 logs).getLastD default = (lastSlice 21 logs).getLastD default := by
    rw [h7eq]
    exact getLastD_drop 14 _ (by omega)
  have hmem7 : (lastSlice 7 logs).headD default ∈ lastSlice 21 logs := by
    rw [h7eq]
    exact List.drop_subset 14 _ (headD_mem _ (by rw [← h7eq]; exact hw7ne))
  have hhead21 : ((lastSlice 21 logs).headD default).date ≤
      ((lastSlice 7 logs).headD default).date :=
    sorted_headD_date_le hs21 hmem7
  have hhead7le : ((lastSlice 7 logs).headD default).date ≤
      ((lastSlice 7 logs).getLastD default).date :=
    sorted_date_le_getLastD hs7 (headD_mem _ hw7ne)
  have hstrict : ((lastSlice 7 logs).headD default).date <
      ((lastSlice 7 logs).getLastD default).date := lt_of_le_of_ne hhead7le hd
  intro heq
  rw [← hlasteq] at heq
  omega

theorem detect_plateau_adj_exists_ok (logs : List DailyLog)
    (h : logs.length < 21 ∨ divisorWeeks logs 21 ≠ 0) :
    ∃ p, DynamicAdjuster.detect_plateau logs 3 = .ok p := by
  by_cases hlen : logs.length < 21
  · exact ⟨_, detect_plateau_adj_short logs hlen⟩
  · exact ⟨_, detect_plateau_adj_eval logs (by omega) (h.resolve_left hlen)⟩

theorem handle_plateau_exists_ok (logs : List DailyLog) (mode : DietMode)
    (h : logs.length < 21 ∨ divisorWeeks logs 21 ≠ 0) :
    ∃ l3, DynamicAdjuster.handle_plateau_adjustments logs mode = .ok l3 := by
  obtain ⟨p, hp⟩ := detect_plateau_adj_exists_ok logs h
  obtain ⟨b, msg⟩ := p
  cases hres : DynamicAdjuster.handle_plateau_adjustments logs mode with
  | ok l3 => exact ⟨l3, rfl⟩
  | error e =>
    exfalso
    unfold DynamicAdjuster.handle_plateau_adjustments at hres
    rw [hp] at hres
    simp at hres

theorem calculate_adjustments_isOk_iff (logs : List DailyLog) (stats : UserStats)
    (mode : DietMode) (hs : List.Sorted dateLE logs) (hlen : 7 ≤ logs.length) :
    (DynamicAdjuster.calculate_adjustments logs stats mode).isOk = true ↔
      ((lastSlice 7 logs).headD default).date ≠
        ((lastSlice 7 logs).getLastD default).date := by
  have hsort7 : sortByDate (lastSlice 7 logs) = lastSlice 7 logs :=
    sortByDate_lastSlice_of_sorted logs hs 7
  have hzero_iff := divisorWeeks_eq_zero_iff logs 7
  rw [hsort7] at hzero_iff
  constructor
  · intro hok hdd
    have hz : divisorWeeks logs 7 = 0 := hzero_iff.mpr hdd
    have hwc : DynamicAdjuster.calculate_weekly_change logs 7 = .error () := by
      unfold DynamicAdjuster.calculate_weekly_change
      rw [if_neg (by omega : ¬ logs.length < 7), if_pos hz]
    have hadj : DynamicAdjuster.calculate_adjustments logs stats mode = .error () := by
      unfold DynamicAdjuster.calculate_adjustments
      rw [hwc]
    rw [hadj] at hok
    simp [Except.isOk, Except.toBool] at hok
  · intro hdd
    have hz : divisorWeeks logs 7 ≠ 0 := fun h0 => hdd (hzero_iff.mp h0)
    obtain ⟨ch, hch, _⟩ := calculate_weekly_change_some logs 7 hlen hz
    have hside : logs.length < 21 ∨ divisorWeeks logs 21 ≠ 0 := by
      by_cases h21 : logs.length < 21
      · exact Or.inl h21
      · right
        have hsort21 : sortByDate (lastSlice 21 logs) = lastSlice 21 logs :=
          sortByDate_lastSlice_of_sorted logs hs 21
        have hi := divisorWeeks_eq_zero_iff logs 21
        rw [hsort21] at hi
        have hd21 := distinct21_of_distinct7 logs hs (by omega) hdd
        exact fun h0 => hd21 (hi.mp h0)
    obtain ⟨l3, hl3⟩ := handle_plateau_exists_ok logs mode hside
    unfold DynamicAdjuster.calculate_adjustments
    rw [hch, hl3]
    simp [Except.isOk, Except.toBool]

/-! ### Claim theorems -/

/-- C2: with at least `weeks x 7 = 21` logs, `detect_plateau(threshold=0.2,
weeks=3)` reports plateau exactly when the absolute weekly weight-trend slope
(daily regression slope times 7) is strictly below 0.2 kg/week, and a true
plateau labels as good adherence exactly when the window's 7-day calorie
adherence is strictly above 0.9, otherwise the low-adherence message embeds
the numeric adherence percentage. -/
theorem claim_c2_detect_plateau (logs : List DailyLog) (h : 21 ≤ logs.length) :
    ProgressTracker.detect_plateau logs (1/5) 3 =
      if |trendSlope (lastSlice 21 logs) * 7| < 1/5 then
        if adherenceFrac (lastSlice 7 logs) > 9/10 then
          (true, "True plateau detected (good adherence)")
        else (true, lowAdherenceMsg (adherenceFrac (lastSlice 7 logs)))
      else (false, "No plateau detected") :=
  detect_plateau_eval logs h

/-- Witness for C2 at a concrete 21-log history. -/
theorem claim_c2_witness :
    21 ≤ sampleLogs21.length ∧
    ProgressTracker.detect_plateau sampleLogs21 (1/5) 3 =
      (true, "True plateau detected (good adherence)") :=
  ⟨by decide, by rw [claim_c2_detect_plateau sampleLogs21 (by decide)]; decide⟩

/-- C3 counterexample: with 7 logs but `days = 3`, `calculate_tdee` returns
the unavailable sentinel although the computation described by the claim
yields the in-range value 2000. -/
theorem claim_c3_counterexample :
    7 ≤ sampleLogs7.length ∧
    ProgressTracker.calculate_tdee sampleLogs7 3 = none ∧
    calculate_tdee_spec sampleLogs7 3 = some 2000 := by decide

/-- C3 amended: provided `days ≥ 7`, `calculate_tdee` computes exactly the
claim's value: round(mean calories - slope x 2.20462 x 3500) over the most
recent `days` logs, with the [500, 10000] sanity guard. -/
theorem claim_c3_tdee_formula (logs : List DailyLog) (days : ℕ) (h : 7 ≤ days) :
    ProgressTracker.calculate_tdee logs days = calculate_tdee_spec logs days := by
  by_cases h7 : logs.length < 7
  · simp [ProgressTracker.calculate_tdee, calculate_tdee_spec, h7]
  · have hlen : ¬ (sortByDate (lastSlice days logs)).length < 7 := by
      rw [show sortByDate (lastSlice days logs) =
          List.insertionSort dateLE (lastSlice days logs) from rfl,
        List.length_insertionSort, length_lastSlice days logs (by omega)]
      omega
    simp [ProgressTracker.calculate_tdee, calculate_tdee_spec, h7, hlen]

/-- Witness for the amended C3 at a concrete 14-log history. -/
theorem claim_c3_witness :
    ProgressTracker.calculate_tdee sampleLogs14 14 = calculate_tdee_spec sampleLogs14 14 :=
  claim_c3_tdee_formula sampleLogs14 14 (by decide)

/-- C4: on histories shorter than the required window, every estimator
returns its sentinel (absent TDEE below 7 logs; empty mapping below `days`
logs) and, being total functions, never raises. -/
theorem claim_c4_short_sentinels (logs : List DailyLog) (days : ℕ) :
    (logs.length < 7 → ProgressTracker.calculate_tdee logs days = none) ∧
    (logs.length < days → ProgressTracker.calculate_trends logs days = none) ∧
    (logs.length < days → ProgressTracker.analyze_body_composition logs days = none) ∧
    (logs.length < days → ProgressTracker.get_adherence_stats logs days = none) := by
  refine ⟨fun h => ?_, fun h => ?_, fun h => ?_, fun h => ?_⟩
  · simp [ProgressTracker.calculate_tdee, h]
  · simp [ProgressTracker.calculate_trends, h]
  · simp [ProgressTracker.analyze_body_composition, h]
  · simp [ProgressTracker.get_adherence_stats, h]

/-- Witness for C4 on the empty history. -/
theorem claim_c4_witness :
    ProgressTracker.calculate_tdee [] 28 = none ∧
    ProgressTracker.calculate_trends [] 28 = none ∧
    ProgressTracker.analyze_body_composition [] 28 = none ∧
    ProgressTracker.get_adherence_stats [] 28 = none :=
  ⟨(claim_c4_short_sentinels [] 28).1 (by decide),
   (claim_c4_short_sentinels [] 28).2.1 (by decide),
   (claim_c4_short_sentinels [] 28).2.2.1 (by decide),
   (claim_c4_short_sentinels [] 28).2.2.2 (by decide)⟩

/-- C5: on histories too short for the window, `detect_plateau` returns the
insufficient-data state, which is distinguishable from the no-plateau,
true-plateau, and low-adherence-plateau results. -/
theorem claim_c5_insufficient_fourth_state (logs : List DailyLog) (h : logs.length < 21) :
    ProgressTracker.detect_plateau logs (1/5) 3 = (false, "Insufficient data") ∧
    (((false, "Insufficient data") : Bool × String) ≠ (false, "No plateau detected")) ∧
    (((false, "Insufficient data") : Bool × String) ≠
      (true, "True plateau detected (good adherence)")) ∧
    (∀ a : ℚ, ((false, "Insufficient data") : Bool × String) ≠ (true, lowAdherenceMsg a)) := by
  refine ⟨?_, by decide, by decide, fun a => by simp⟩
  have hne : logs.length < 3 * 7 := by omega
  simp [ProgressTracker.detect_plateau, ProgressTracker.calculate_trends, hne]

/-- Witness for C5 at a concrete 7-log history. -/
theorem claim_c5_witness :
    ProgressTracker.detect_plateau sampleLogs7 (1/5) 3 = (false, "Insufficient data") :=
  (claim_c5_insufficient_fourth_state sampleLogs7 (by decide)).1

/-- C8: the adaptive adjustment equals round(200 x body-fat factor x
deviation factor), the factors being the claim's piecewise scalings applied
multiplicatively in that order. -/
theorem claim_c8_adaptive_adjustment (weekly_change : ℚ) (mode : DietMode) (body_fat : ℚ) :
    DynamicAdjuster.calculate_adaptive_adjustment weekly_change mode body_fat =
      roundHalfEven (200 * bodyFatFactor body_fat *
        deviationFactor |weekly_change - modeTargetRate mode|) := by
  have ht : (if mode = DietMode.aggressive_cut ∨ mode = DietMode.standard_cut then
      (if mode = DietMode.aggressive_cut then (-(4/5) : ℚ) else -(1/2))
    else (if mode = DietMode.lean_bulk then (1/4 : ℚ) else 1/2)) = modeTargetRate mode := by
    cases mode <;> rfl
  simp only [DynamicAdjuster.calculate_adaptive_adjustment]
  rw [ht]
  unfold bodyFatFactor deviationFactor
  split_ifs <;> rfl

/-- C9 counterexample: a log constructed with weight 0 and body-fat 15 keeps
the caller-supplied lean mass 10 instead of the claimed derived value. -/
theorem claim_c9_counterexample :
    (mkDailyLog 0 0 15 2000 150 200 70 (some 10) none).body_fat = 15 ∧
    (mkDailyLog 0 0 15 2000 150 200 70 (some 10) none).lean_mass = some 10 ∧
    ¬ ((mkDailyLog 0 0 15 2000 150 200 70 (some 10) none).lean_mass =
        some ((mkDailyLog 0 0 15 2000 150 200 70 (some 10) none).weight -
          (mkDailyLog 0 0 15 2000 150 200 70 (some 10) none).weight *
            ((mkDailyLog 0 0 15 2000 150 200 70 (some 10) none).body_fat / 100))) := by
  decide

/-- C9 amended: for every DailyLog constructed with nonzero weight and
nonzero body-fat, the derived fields satisfy fat_mass = weight x body_fat/100
and lean_mass = weight - fat_mass (so lean + fat = weight), regardless of
caller-supplied values. -/
theorem claim_c9_derived_fields (date : ℤ) (weight body_fat : ℚ) (calories : ℤ)
    (protein carbs fat : ℚ) (lean_in fat_in : Option ℚ)
    (hw : weight ≠ 0) (hbf : body_fat ≠ 0) :
    (mkDailyLog date weight body_fat calories protein carbs fat lean_in fat_in).fat_mass =
      some (weight * (body_fat / 100)) ∧
    (mkDailyLog date weight body_fat calories protein carbs fat lean_in fat_in).lean_mass =
      some (weight - weight * (body_fat / 100)) ∧
    (weight - weight * (body_fat / 100)) + weight * (body_fat / 100) = weight := by
  unfold mkDailyLog
  rw [if_pos ⟨hw, hbf⟩]
  exact ⟨rfl, rfl, by ring⟩

/-- Witness for the amended C9 at a concrete log. -/
theorem claim_c9_witness :
    (mkDailyLog 0 80 15 2500 180 250 83 none none).fat_mass = some 12 ∧
    (mkDailyLog 0 80 15 2500 180 250 83 none none).lean_mass = some 68 := by
  have h := claim_c9_derived_fields 0 80 15 2500 180 250 83 none none
    (by decide) (by decide)
  exact ⟨by rw [h.1]; decide, by rw [h.2.1]; decide⟩

/-- C1 (modelled from the spec, the source of `get_net_adjustment` not being in
the tree): empty input nets to zero; Low-only input nets to zero; any High
member makes the result the pair of independent maxima over the High tier;
with no High member but some Medium member the result is the pair of
independent maxima over the Medium tier — so High values win over Medium
ones for every input list, whatever its order. -/
theorem claim_c1_get_net_adjustment :
    get_net_adjustment [] = (0, 0) ∧
    (∀ l : List Adjustment, (∀ a ∈ l, a.severity = "low") →
      get_net_adjustment l = (0, 0)) ∧
    (∀ l : List Adjustment, (∃ a ∈ l, a.severity = "high") →
      get_net_adjustment l =
        (listMaxD ((l.filter fun a => a.severity = "high").map fun a => a.calories),
         listMaxD ((l.filter fun a => a.severity = "high").map fun a => a.protein))) ∧
    (∀ l : List Adjustment, (∀ a ∈ l, a.severity ≠ "high") →
      (∃ a ∈ l, a.severity = "medium") →
      get_net_adjustment l =
        (listMaxD ((l.filter fun a => a.severity = "medium").map fun a => a.calories),
         listMaxD ((l.filter fun a => a.severity = "medium").map fun a => a.protein))) := by
  refine ⟨rfl, fun l h => ?_, fun l h => ?_, fun l hnh hm => ?_⟩
  · have hh : (l.filter fun a => a.severity = "high") = [] := by
      simp only [List.filter_eq_nil_iff]
      intro a ha
      simp [h a ha]
    have hm : (l.filter fun a => a.severity = "medium") = [] := by
      simp only [List.filter_eq_nil_iff]
      intro a ha
      simp [h a ha]
    simp [get_net_adjustment, hh, hm]
  · have hne : (l.filter fun a => a.severity = "high") ≠ [] := by
      obtain ⟨a, ha, hsev⟩ := h
      intro hnil
      have hmem : a ∈ l.filter fun x => x.severity = "high" :=
        List.mem_filter.mpr ⟨ha, by simp [hsev]⟩
      rw [hnil] at hmem
      simp at hmem
    simp [get_net_adjustment, hne]
  · have hh : (l.filter fun a => a.severity = "high") = [] := by
      simp only [List.filter_eq_nil_iff]
      intro a ha
      simp [hnh a ha]
    have hne : (l.filter fun a => a.severity = "medium") ≠ [] := by
      obtain ⟨a, ha, hsev⟩ := hm
      intro hnil
      have hmem : a ∈ l.filter fun x => x.severity = "medium" :=
        List.mem_filter.mpr ⟨ha, by simp [hsev]⟩
      rw [hnil] at hmem
      simp at hmem
    simp [get_net_adjustment, hh, hne]

/-- Witness for C1: the empty, Low-only, High-present, and Medium-without-High
cases at concrete adjustment lists; in the High case the calorie maximum
comes from one record and the protein maximum from another. -/
theorem claim_c1_witness :
    get_net_adjustment [adjLowA] = (0, 0) ∧
    get_net_adjustment [adjLowA, adjMedA, adjHighA, adjHighB] = (250, 40) ∧
    get_net_adjustment [adjLowA, adjMedA, adjMedB] = (-200, 10) :=
  ⟨claim_c1_get_net_adjustment.2.1 [adjLowA] (by decide),
   (claim_c1_get_net_adjustment.2.2.1 [adjLowA, adjMedA, adjHighA, adjHighB]
     (by decide)).trans (by decide),
   (claim_c1_get_net_adjustment.2.2.2 [adjLowA, adjMedA, adjMedB]
     (by decide) (by decide)).trans (by decide)⟩

/-- C6 counterexample: on a history with constant weight and calories logged
only over the last 7 of 21 days, the two detectors agree that a plateau
exists but disagree on the adherence sub-classification. -/
theorem claim_c6_counterexample :
    ProgressTracker.detect_plateau splitAdherenceLogs (1/5) 3 =
      (true, "True plateau detected (good adherence)") ∧
    DynamicAdjuster.detect_plateau splitAdherenceLogs 3 =
      .ok (true, "Plateau detected but adherence is low (50%)") ∧
    ("True plateau detected (good adherence)" : String) ≠
      "Plateau detected but adherence is low (50%)" := by
  decide

/-- C6 amended: the two plateau detectors agree on sufficiency (below 21 logs
both return insufficient data); above it they agree on the plateau boolean
and the good/low sub-classification exactly when the endpoint-based rate and
the regression-based weekly trend fall on the same side of 0.2, and the
last-14-log and last-7-log adherence ratios fall on the same side of 0.9; in
general (see the counterexample) the two differ. -/
theorem claim_c6_conditional_agreement :
    (∀ logs : List DailyLog, logs.length < 21 →
      DynamicAdjuster.detect_plateau logs 3 = .ok (false, "Insufficient data") ∧
      ProgressTracker.detect_plateau logs (1/5) 3 = (false, "Insufficient data")) ∧
    (∀ logs : List DailyLog, List.Sorted dateLE logs → 21 ≤ logs.length →
      divisorWeeks logs 21 ≠ 0 →
      (|endpointWeeklyRate (lastSlice 21 logs)| < 1/5 ↔
        |trendSlope (lastSlice 21 logs) * 7| < 1/5) →
      (DynamicAdjuster.check_diet_adherence logs 14 > 9/10 ↔
        adherenceFrac (lastSlice 7 logs) > 9/10) →
      (DynamicAdjuster.detect_plateau logs 3).map plateauClass =
        .ok (plateauClass (ProgressTracker.detect_plateau logs (1/5) 3))) := by
  constructor
  · intro logs h
    refine ⟨detect_plateau_adj_short logs h, ?_⟩
    have hne : logs.length < 3 * 7 := by omega
    simp [ProgressTracker.detect_plateau, ProgressTracker.calculate_trends, hne]
  · intro logs hs hlen hd hiff1 hiff2
    have hsort21 : sortByDate (lastSlice 21 logs) = lastSlice 21 logs :=
      sortByDate_lastSlice_of_sorted logs hs 21
    have hadj := detect_plateau_adj_eval logs hlen hd
    rw [hsort21] at hadj
    have htr := detect_plateau_eval logs hlen
    rw [hadj, htr]
    by_cases h1 : |trendSlope (lastSlice 21 logs) * 7| < 1/5
    · have h1' : |endpointWeeklyRate (lastSlice 21 logs)| < 1/5 := hiff1.mpr h1
      rw [if_pos h1, if_pos h1']
      by_cases h2 : adherenceFrac (lastSlice 7 logs) > 9/10
      · have h2' : DynamicAdjuster.check_diet_adherence logs 14 > 9/10 := hiff2.mpr h2
        rw [if_pos h2, if_pos h2']
        rfl
      · have h2' : ¬ DynamicAdjuster.check_diet_adherence logs 14 > 9/10 :=
          fun hx => h2 (hiff2.mp hx)
        rw [if_neg h2, if_neg h2']
        simp [Except.map, plateauClass, lowAdherenceMsg_ne_good]
    · have h1' : ¬ |endpointWeeklyRate (lastSlice 21 logs)| < 1/5 :=
        fun hx => h1 (hiff1.mp hx)
      rw [if_neg h1, if_neg h1']
      rfl

/-- Witness for the amended C6 at a concrete 21-log history where both
detectors report a good-adherence plateau. -/
theorem claim_c6_witness :
    (DynamicAdjuster.detect_plateau sampleLogs21 3).map plateauClass =
      .ok (plateauClass (ProgressTracker.detect_plateau sampleLogs21 (1/5) 3)) :=
  claim_c6_conditional_agreement.2 sampleLogs21 (by decide) (by decide) (by decide)
    (by decide) (by decide)

/-- C7 counterexample: at the 10000 kcal sanity bound, adding 1 kcal per day
turns the estimate from the number 10000 into the unavailable sentinel
instead of increasing it by 1. -/
theorem claim_c7_counterexample :
    ProgressTracker.calculate_tdee boundaryLogs 14 = some 10000 ∧
    ProgressTracker.calculate_tdee (shiftCalories 1 boundaryLogs) 14 = none := by
  decide

/-- C7 amended: adding a constant c to every log's calories (weights and
dates fixed) increases `calculate_tdee`'s result by exactly c, provided the
shifted value still passes the [500, 10000] guard and the pre-rounding
estimate is not an exact half-integer (where banker's rounding can move a
tie by one). -/
theorem claim_c7_tdee_shift (logs : List DailyLog) (days : ℕ) (c t : ℤ)
    (h1 : ProgressTracker.calculate_tdee logs days = some t)
    (h2 : tdeeRaw logs days - (⌊tdeeRaw logs days⌋ : ℚ) ≠ 1/2)
    (h3 : 500 ≤ t + c) (h4 : t + c ≤ 10000) :
    ProgressTracker.calculate_tdee (shiftCalories c logs) days = some (t + c) := by
  unfold ProgressTracker.calculate_tdee at h1 ⊢
  by_cases ha : logs.length < 7
  · rw [if_pos ha] at h1
    exact absurd h1 (by simp)
  rw [if_neg ha] at h1
  by_cases hb : (sortByDate (lastSlice days logs)).length < 7
  · rw [if_pos hb] at h1
    exact absurd h1 (by simp)
  rw [if_neg hb] at h1
  have hne : sortByDate (lastSlice days logs) ≠ [] := by
    intro hnil
    rw [hnil] at hb
    simp at hb
  have hlen1 : ¬ (shiftCalories c logs).length < 7 := by
    rw [show (shiftCalories c logs).length = logs.length from List.length_map _ _]
    exact ha
  have hwin : sortByDate (lastSlice days (shiftCalories c logs)) =
      shiftCalories c (sortByDate (lastSlice days logs)) := by
    rw [lastSlice_shift, sortByDate_shift]
  have hlen2 : ¬ (sortByDate (lastSlice days (shiftCalories c logs))).length < 7 := by
    rw [hwin, show (shiftCalories c (sortByDate (lastSlice days logs))).length =
        (sortByDate (lastSlice days logs)).length from List.length_map _ _]
    exact hb
  rw [if_neg hlen1, if_neg hlen2, tdeeRaw_shift c logs days hne,
    roundHalfEven_add_int _ c h2]
  by_cases hc : 500 ≤ roundHalfEven (tdeeRaw logs days) ∧
      roundHalfEven (tdeeRaw logs days) ≤ 10000
  · rw [if_pos hc] at h1
    have ht : roundHalfEven (tdeeRaw logs days) = t := Option.some.inj h1
    rw [ht, if_pos ⟨h3, h4⟩]
  · rw [if_neg hc] at h1
    exact absurd h1 (by simp)

/-- Witness for the amended C7: shifting a flat 2000-kcal history by +300
moves the estimate from 2000 to 2300. -/
theorem claim_c7_witness :
    ProgressTracker.calculate_tdee (shiftCalories 300 sampleLogs14) 14 = some 2300 :=
  claim_c7_tdee_shift sampleLogs14 14 300 2000 (by decide) (by decide)
    (by decide) (by decide)

/-- C10: the divisor of `calculate_weekly_change` is zero exactly when the
first and last logs of the selected (sorted) window share a date; the method
succeeds exactly when they differ; and for a date-sorted history with at
least 7 logs, `calculate_adjustments` (which calls it) succeeds exactly when
its 7-log window spans at least one day. -/
theorem claim_c10_division_totality :
    (∀ (logs : List DailyLog) (days : ℕ), days ≤ logs.length →
      ((((sortByDate (lastSlice days logs)).headD default).date =
          ((sortByDate (lastSlice days logs)).getLastD default).date →
        divisorWeeks logs days = 0) ∧
       ((DynamicAdjuster.calculate_weekly_change logs days).isOk = true ↔
         ((sortByDate (lastSlice days logs)).headD default).date ≠
           ((sortByDate (lastSlice days logs)).getLastD default).date))) ∧
    (∀ (logs : List DailyLog) (stats : UserStats) (mode : DietMode),
      List.Sorted dateLE logs → 7 ≤ logs.length →
      ((DynamicAdjuster.calculate_adjustments logs stats mode).isOk = true ↔
        ((lastSlice 7 logs).headD default).date ≠
          ((lastSlice 7 logs).getLastD default).date)) := by
  constructor
  · intro logs days h2
    refine ⟨fun heq => (divisorWeeks_eq_zero_iff logs days).mpr heq, ?_⟩
    rw [calculate_weekly_change_isOk_iff logs days h2]
    exact not_congr (divisorWeeks_eq_zero_iff logs days)
  · intro logs stats mode hs hlen
    exact calculate_adjustments_isOk_iff logs stats mode hs hlen

/-- Witness for C10 at a concrete 7-log history spanning 6 days. -/
theorem claim_c10_witness :
    (DynamicAdjuster.calculate_weekly_change sampleLogs7 7).isOk = true ∧
    (DynamicAdjuster.calculate_adjustments sampleLogs7
        { weight := 80, body_fat := 15, target_weight := 75, target_body_fat := 12 }
        DietMode.standard_cut).isOk = true :=
  ⟨((claim_c10_division_totality.1 sampleLogs7 7 (by decide)).2).mpr (by decide),
   (claim_c10_division_totality.2 sampleLogs7
       { weight := 80, body_fat := 15, target_weight := 75, target_body_fat := 12 }
       DietMode.standard_cut (by decide) (by decide)).mpr (by decide)⟩

end

end Macromanage
